import Mathlib

/-!
Verification of the steering-controller trajectory player
(`zinger_controller_test_nodes/steering_controller.py`).

The embedding below mirrors the Python source.  Scalars (Python floats) are
modelled as rationals, time values as rationals (seconds).  A tick of
`timer_callback` takes the clock value `current_time` and returns the updated
controller state together with an `Except`-wrapped optional output vector:
`.ok none` models a tick that publishes nothing, `.ok (some v)` models
publishing the vector `v`, and `.error _` models an uncaught Python exception
escaping the callback.
-/

namespace Zinger

/-- Python `int(x)` applied to a float: truncation toward zero. -/
def pyInt (q : ℚ) : ℤ :=
  if q < 0 then -⌊-q⌋ else ⌊q⌋

/-- Controller state: the fields of `SteeringController` read or written by
`timer_callback`, as set up by `__init__`.  `sequence_start_time` is the only
field the callback ever mutates. -/
structure SteeringController where
  positions : List (List ℚ)
  velocities : List (List ℚ)
  segment_duration_in_seconds : ℚ
  profile_duration : ℚ
  profile_and_wait_duration : ℚ
  sequence_start_time : ℚ
deriving Repr, DecidableEq

/-- The parameter-reading loops of `__init__` (lines 49-80): each named list
must be present (`some`) and non-empty, otherwise the constructor raises. -/
def readValueLists : List (Option (List ℚ)) → Except String (List (List ℚ))
  | [] => .ok []
  | none :: _ => .error "Values for goal not set"
  | some v :: rest =>
    if v.length = 0 then
      .error "Values for goal not set"
    else
      (readValueLists rest).map (fun r => v :: r)

/-- `SteeringController.__init__` (lines 21-110), restricted to the state the
callback consumes.  `posValues` and `velValues` are the parameter values looked
up for `pos_names` and `vel_names` in order; `now` is the clock value stored in
`sequence_start_time`.  Publishing/timer setup is external collaborator code
and carries no engine state. -/
def SteeringController.init (joints : Option (List String))
    (wait_sec_between_profiles : ℚ)
    (posValues velValues : List (Option (List ℚ)))
    (now : ℚ) : Except String SteeringController :=
  if joints = none ∨ (joints.getD []).length = 0 then
    .error "joints parameter is not set"
  else
    match readValueLists posValues, readValueLists velValues with
    | .error e, _ => .error e
    | .ok _, .error e => .error e
    | .ok positions, .ok velocities =>
      let segment_duration_in_seconds : ℚ := 1
      .ok
        { positions := positions
          velocities := velocities
          segment_duration_in_seconds := segment_duration_in_seconds
          profile_duration := segment_duration_in_seconds * positions.length
          profile_and_wait_duration :=
            segment_duration_in_seconds * positions.length + wait_sec_between_profiles
          sequence_start_time := now }

/-- The interpolation loop of `timer_callback` (lines 175-181): iterates over
the indices of `profile_start_values` and indexes `profile_end_values` at each
of them, so a too-short end list raises `IndexError`. -/
def interpolateValues : List ℚ → List ℚ → ℚ → Except String (List ℚ)
  | [], _, _ => .ok []
  | _ :: _, [], _ => .error "IndexError"
  | s :: ss, e :: es, f =>
    (interpolateValues ss es f).map (fun rest => ((e - s) * f + s) :: rest)

/-- The pure value computed by the interpolation loop when it does not raise:
pointwise `(end - start) * fraction + start` over the paired axes. -/
def interp (s e : List ℚ) (f : ℚ) : List ℚ :=
  (s.zip e).map (fun p => (p.2 - p.1) * f + p.1)

/-- `SteeringController.timer_callback` (lines 112-190).  Returns the state
after the tick and the published output: `.ok none` when a guard suppressed
publication, `.ok (some v)` when `v` was published, `.error _` when the
interpolation loop raised.  The source reads the clock twice (line 118 and
line 135); the model uses the single tick clock value `current_time` for
both. -/
def SteeringController.timer_callback (c : SteeringController)
    (current_time : ℚ) :
    SteeringController × Except String (Option (List ℚ)) :=
  let running_duration_as_float : ℚ := current_time - c.sequence_start_time
  if running_duration_as_float > c.profile_and_wait_duration then
    ({ c with sequence_start_time := current_time }, .ok none)
  else if running_duration_as_float > c.profile_duration then
    (c, .ok none)
  else
    let lower_bound_of_profile_section : ℤ := pyInt running_duration_as_float
    let upper_bound_of_profile_section : ℤ := lower_bound_of_profile_section + 1
    let time_fraction : ℚ :=
      (running_duration_as_float - (lower_bound_of_profile_section : ℚ)) /
        c.segment_duration_in_seconds
    if lower_bound_of_profile_section < 0 then
      (c, .ok none)
    else if (c.positions.length : ℤ) ≤ upper_bound_of_profile_section then
      (c, .ok none)
    else
      let profile_start_values := c.positions.getD lower_bound_of_profile_section.toNat []
      let profile_end_values := c.positions.getD upper_bound_of_profile_section.toNat []
      (c, (interpolateValues profile_start_values profile_end_values time_fraction).map some)

/-- The §3 data-model invariant the constructor establishes about the derived
durations: the segment duration is the hard-coded 1 second, the profile
duration is segment duration times waypoint count, and the wait duration
appended to form the cycle duration is non-negative. -/
def Wf (c : SteeringController) : Prop :=
  c.segment_duration_in_seconds = 1 ∧
  c.profile_duration = c.segment_duration_in_seconds * c.positions.length ∧
  c.profile_duration ≤ c.profile_and_wait_duration

instance (c : SteeringController) : Decidable (Wf c) := by
  unfold Wf; infer_instance

/-- The §3 data-model invariant on waypoints: all waypoints in the profile
have the same length (one value per controlled axis). -/
def UniformLength (c : SteeringController) : Prop :=
  ∀ w ∈ c.positions, w.length = (c.positions.headD []).length

instance (c : SteeringController) : Decidable (UniformLength c) := by
  unfold UniformLength; infer_instance

/-- Concrete controller state of the §8 scenario: 2 axes, 3 waypoints,
segment duration 1 s, wait 1 s. -/
def cDemo : SteeringController :=
  { positions := [[0, 0], [1, 2], [2, 4]]
    velocities := [[1, 1], [1, 1], [1, 1]]
    segment_duration_in_seconds := 1
    profile_duration := 3
    profile_and_wait_duration := 4
    sequence_start_time := 0 }

end Zinger

namespace Zinger

/-- Unfolding of `timer_callback` into its guard cascade. -/
theorem timer_callback_eq (c : SteeringController) (t : ℚ) :
    c.timer_callback t =
      if t - c.sequence_start_time > c.profile_and_wait_duration then
        ({ c with sequence_start_time := t }, .ok none)
      else if t - c.sequence_start_time > c.profile_duration then
        (c, .ok none)
      else if pyInt (t - c.sequence_start_time) < 0 then
        (c, .ok none)
      else if (c.positions.length : ℤ) ≤ pyInt (t - c.sequence_start_time) + 1 then
        (c, .ok none)
      else
        (c, (interpolateValues
          (c.positions.getD (pyInt (t - c.sequence_start_time)).toNat [])
          (c.positions.getD (pyInt (t - c.sequence_start_time) + 1).toNat [])
          ((t - c.sequence_start_time - ((pyInt (t - c.sequence_start_time) : ℤ) : ℚ)) /
            c.segment_duration_in_seconds)).map some) :=
  rfl

/-- The tick leaves the state unchanged except in the reset branch. -/
theorem timer_callback_fst (c : SteeringController) (t : ℚ) :
    (c.timer_callback t).1 =
      if t - c.sequence_start_time > c.profile_and_wait_duration then
        { c with sequence_start_time := t }
      else c := by
  rw [timer_callback_eq]
  split_ifs <;> rfl

theorem pyInt_of_not_neg {q : ℚ} (h : ¬ q < 0) : pyInt q = ⌊q⌋ := by
  simp [pyInt, h]

theorem pyInt_natCast (n : ℕ) : pyInt (n : ℚ) = n := by
  rw [pyInt_of_not_neg (not_lt.mpr (Nat.cast_nonneg n))]
  exact Int.floor_natCast n

theorem pyInt_zero : pyInt 0 = 0 := by
  simpa using pyInt_natCast 0

/-- Whenever the low guard passes (`0 ≤ pyInt q`), the residual fraction is
below one. -/
theorem sub_pyInt_lt_one (q : ℚ) (h : 0 ≤ pyInt q) : q - (pyInt q : ℚ) < 1 := by
  unfold pyInt at *
  split_ifs at * with hq
  · have hfl : (⌊-q⌋ : ℚ) ≤ -q := Int.floor_le (-q)
    push_cast at *
    linarith
  · have := Int.lt_floor_add_one q
    push_cast at *
    linarith

/-- Python `int()` of a value strictly between -1 and 0 is 0 (truncation
toward zero, unlike `floor`). -/
theorem pyInt_neg_fraction {q : ℚ} (h1 : -1 < q) (h2 : q < 0) : pyInt q = 0 := by
  have : ⌊-q⌋ = 0 := Int.floor_eq_zero_iff.mpr ⟨by linarith, by linarith⟩
  simp [pyInt, h2, this]

/-- The interpolation loop succeeds when the end waypoint is at least as long
as the start waypoint, and computes the pointwise linear blend. -/
theorem interpolateValues_ok :
    ∀ (s e : List ℚ) (f : ℚ), s.length ≤ e.length →
      interpolateValues s e f = .ok (interp s e f)
  | [], e, f, _ => by simp [interpolateValues, interp]
  | a :: s, [], f, h => by simp at h
  | a :: s, b :: e, f, h => by
    rw [interpolateValues, interpolateValues_ok s e f (by simpa using h)]
    simp [interp, Except.map]

/-- Interpolating with fraction 0 reproduces the start waypoint. -/
theorem interp_zero (s e : List ℚ) (h : s.length ≤ e.length) : interp s e 0 = s := by
  unfold interp
  rw [show (fun p : ℚ × ℚ => (p.2 - p.1) * 0 + p.1) = Prod.fst by funext p; ring_nf]
  exact List.map_fst_zip s e h

/-- With a non-positive fraction the blended value lies on the far side of the
start waypoint from the end waypoint, axis by axis. -/
theorem interp_extrapolate :
    ∀ (s e : List ℚ) (f : ℚ), f ≤ 0 → s.length ≤ e.length → ∀ i : ℕ,
      ((interp s e f).getD i 0 - s.getD i 0) * (e.getD i 0 - s.getD i 0) ≤ 0
  | [], e, f, hf, hl, i => by simp [interp]
  | a :: s, [], f, hf, hl, i => by simp at hl
  | a :: s, b :: e, f, hf, hl, 0 => by
    simp only [interp, List.zip_cons_cons, List.map_cons, List.getD_cons_zero]
    nlinarith [sq_nonneg (b - a)]
  | a :: s, b :: e, f, hf, hl, (i + 1) => by
    simpa only [interp, List.zip_cons_cons, List.map_cons, List.getD_cons_succ] using
      interp_extrapolate s e f hf (by simpa using hl) i

end Zinger

namespace Zinger

/-- In the interpolating branch (all four guards pass), the published value is
the pointwise linear blend of the two bracketing waypoints, provided all
waypoints have the same length. -/
theorem tick_interpolating (c : SteeringController) (t : ℚ)
    (hU : UniformLength c)
    (g1 : ¬ t - c.sequence_start_time > c.profile_and_wait_duration)
    (g2 : ¬ t - c.sequence_start_time > c.profile_duration)
    (g3 : ¬ pyInt (t - c.sequence_start_time) < 0)
    (g4 : ¬ (c.positions.length : ℤ) ≤ pyInt (t - c.sequence_start_time) + 1) :
    (c.timer_callback t).2 = .ok (some (interp
      (c.positions.getD (pyInt (t - c.sequence_start_time)).toNat [])
      (c.positions.getD ((pyInt (t - c.sequence_start_time)).toNat + 1) [])
      ((t - c.sequence_start_time - ((pyInt (t - c.sequence_start_time) : ℤ) : ℚ)) /
        c.segment_duration_in_seconds))) := by
  rw [timer_callback_eq, if_neg g1, if_neg g2, if_neg g3, if_neg g4]
  have h0 : 0 ≤ pyInt (t - c.sequence_start_time) := not_lt.mp g3
  have hlt : pyInt (t - c.sequence_start_time) + 1 < (c.positions.length : ℤ) := not_le.mp g4
  have hidx : (pyInt (t - c.sequence_start_time) + 1).toNat =
      (pyInt (t - c.sequence_start_time)).toNat + 1 := by omega
  have h1n : (pyInt (t - c.sequence_start_time)).toNat < c.positions.length := by omega
  have h2n : (pyInt (t - c.sequence_start_time)).toNat + 1 < c.positions.length := by omega
  have hs : c.positions.getD (pyInt (t - c.sequence_start_time)).toNat [] ∈ c.positions := by
    rw [List.getD_eq_getElem _ _ h1n]; exact List.getElem_mem h1n
  have he : c.positions.getD ((pyInt (t - c.sequence_start_time)).toNat + 1) [] ∈
      c.positions := by
    rw [List.getD_eq_getElem _ _ h2n]; exact List.getElem_mem h2n
  have hlen : (c.positions.getD (pyInt (t - c.sequence_start_time)).toNat []).length ≤
      (c.positions.getD ((pyInt (t - c.sequence_start_time)).toNat + 1) []).length := by
    rw [hU _ hs, hU _ he]
  rw [hidx, interpolateValues_ok _ _ _ hlen]
  rfl

/-- The head of the waypoint list, as the guarded indexing reads it. -/
theorem getD_zero_eq_headD (c : SteeringController) :
    c.positions.getD 0 [] = c.positions.headD [] := by
  cases c.positions <;> simp

/-- A tick taken exactly at the sequence start time publishes waypoint 0. -/
theorem tick_at_start (c : SteeringController) (t : ℚ)
    (hW : Wf c) (hU : UniformLength c) (hn : 2 ≤ c.positions.length)
    (h0 : t - c.sequence_start_time = 0) :
    (c.timer_callback t).2 = .ok (some (c.positions.headD [])) := by
  obtain ⟨hS, hPD, hCW⟩ := hW
  have hPD2 : (2 : ℚ) ≤ c.profile_duration := by
    rw [hPD, hS, one_mul]
    exact_mod_cast hn
  have g2 : ¬ t - c.sequence_start_time > c.profile_duration := by rw [h0]; push_neg; linarith
  have g1 : ¬ t - c.sequence_start_time > c.profile_and_wait_duration := by
    rw [h0]; push_neg; linarith
  have hpy : pyInt (t - c.sequence_start_time) = 0 := by rw [h0]; exact pyInt_zero
  have g3 : ¬ pyInt (t - c.sequence_start_time) < 0 := by rw [hpy]; omega
  have g4 : ¬ (c.positions.length : ℤ) ≤ pyInt (t - c.sequence_start_time) + 1 := by
    rw [hpy]; push_neg; exact_mod_cast hn
  rw [tick_interpolating c t hU g1 g2 g3 g4, hpy, h0]
  have h1n : 0 < c.positions.length := by omega
  have h2n : 1 < c.positions.length := by omega
  have hs : c.positions.getD 0 [] ∈ c.positions := by
    rw [List.getD_eq_getElem _ _ h1n]; exact List.getElem_mem h1n
  have he : c.positions.getD 1 [] ∈ c.positions := by
    rw [List.getD_eq_getElem _ _ h2n]; exact List.getElem_mem h2n
  have hlen : (c.positions.getD 0 []).length ≤ (c.positions.getD 1 []).length := by
    rw [hU _ hs, hU _ he]
  have hfrac : ((0 : ℚ) - ((0 : ℤ) : ℚ)) / c.segment_duration_in_seconds = 0 := by norm_num
  rw [show ((0 : ℤ).toNat) = 0 from rfl, hfrac, interp_zero _ _ hlen, getD_zero_eq_headD]


/-- When the next-index guard condition holds, the tick publishes nothing. -/
theorem tick_none_of_high (c : SteeringController) (t : ℚ)
    (h : (c.positions.length : ℤ) ≤ pyInt (t - c.sequence_start_time) + 1) :
    (c.timer_callback t).2 = .ok none := by
  rw [timer_callback_eq]
  split_ifs <;> first | rfl | exact absurd h (by assumption)

/-- When the segment index is negative, the tick publishes nothing. -/
theorem tick_none_of_low (c : SteeringController) (t : ℚ)
    (h : pyInt (t - c.sequence_start_time) < 0) :
    (c.timer_callback t).2 = .ok none := by
  rw [timer_callback_eq]
  split_ifs <;> first | rfl | exact absurd h (by assumption)


/-- Claim C1: whenever the computed next index (segment index + 1) is at least
the waypoint count, the tick publishes nothing; a profile with exactly one
waypoint never publishes; and when a tick does publish, the segment index is
non-negative, the next index is strictly below the waypoint count (so both
list accesses of the interpolation branch are in bounds), and the
interpolation fraction stays below 1, so the final configured waypoint is
never produced by interpolation. -/
theorem claim_C1 (c : SteeringController) (t : ℚ)
    (hS : c.segment_duration_in_seconds = 1) :
    ((c.positions.length : ℤ) ≤ pyInt (t - c.sequence_start_time) + 1 →
      (c.timer_callback t).2 = .ok none) ∧
    (c.positions.length = 1 → (c.timer_callback t).2 = .ok none) ∧
    (∀ v, (c.timer_callback t).2 = .ok (some v) →
      0 ≤ pyInt (t - c.sequence_start_time) ∧
      pyInt (t - c.sequence_start_time) + 1 < (c.positions.length : ℤ) ∧
      (t - c.sequence_start_time - ((pyInt (t - c.sequence_start_time) : ℤ) : ℚ)) /
        c.segment_duration_in_seconds < 1) := by
  refine ⟨tick_none_of_high c t, ?_, ?_⟩
  · intro h1
    by_cases hlow : pyInt (t - c.sequence_start_time) < 0
    · exact tick_none_of_low c t hlow
    · exact tick_none_of_high c t (by rw [h1]; push_cast; omega)
  · intro v hv
    rw [timer_callback_eq] at hv
    split_ifs at hv with g1 g2 g3 g4
    · exact absurd hv (by simp)
    · exact absurd hv (by simp)
    · exact absurd hv (by simp)
    · exact absurd hv (by simp)
    · refine ⟨not_lt.mp g3, not_le.mp g4, ?_⟩
      rw [hS, div_one]
      exact sub_pyInt_lt_one _ (not_lt.mp g3)

/-- Witness for C1: instantiation at the §8 demo profile and a tick half a
second into the sequence. -/
theorem claim_C1_witness :
    cDemo.segment_duration_in_seconds = 1 ∧
    (((cDemo.positions.length : ℤ) ≤ pyInt ((1 : ℚ)/2 - cDemo.sequence_start_time) + 1 →
      (cDemo.timer_callback ((1 : ℚ)/2)).2 = .ok none) ∧
    (cDemo.positions.length = 1 → (cDemo.timer_callback ((1 : ℚ)/2)).2 = .ok none) ∧
    (∀ v, (cDemo.timer_callback ((1 : ℚ)/2)).2 = .ok (some v) →
      0 ≤ pyInt ((1 : ℚ)/2 - cDemo.sequence_start_time) ∧
      pyInt ((1 : ℚ)/2 - cDemo.sequence_start_time) + 1 < (cDemo.positions.length : ℤ) ∧
      ((1 : ℚ)/2 - cDemo.sequence_start_time -
          ((pyInt ((1 : ℚ)/2 - cDemo.sequence_start_time) : ℤ) : ℚ)) /
        cDemo.segment_duration_in_seconds < 1)) :=
  ⟨rfl, claim_C1 cDemo ((1 : ℚ)/2) rfl⟩


/-- Claim C2: a tick whose elapsed time strictly exceeds the cycle duration
resets `sequence_start_time` to the tick clock value and publishes nothing;
at elapsed exactly the cycle duration the strict comparison keeps the reset
from firing and the state is left unchanged, the tick falling through to the
waiting/interpolation logic. -/
theorem claim_C2 (c : SteeringController) (t : ℚ) :
    (t - c.sequence_start_time > c.profile_and_wait_duration →
      (c.timer_callback t).1 = { c with sequence_start_time := t } ∧
      (c.timer_callback t).2 = .ok none) ∧
    (t - c.sequence_start_time = c.profile_and_wait_duration →
      (c.timer_callback t).1 = c) := by
  constructor
  · intro h
    rw [timer_callback_eq, if_pos h]
    exact ⟨rfl, rfl⟩
  · intro h
    rw [timer_callback_fst, if_neg (by rw [h]; exact lt_irrefl _)]

/-- Witness for C2: the demo profile ticked at 5 s (past the 4 s cycle,
resetting) and at exactly 4 s (boundary, no reset). -/
theorem claim_C2_witness :
    ((5 : ℚ) - cDemo.sequence_start_time > cDemo.profile_and_wait_duration ∧
      (cDemo.timer_callback 5).1 = { cDemo with sequence_start_time := 5 } ∧
      (cDemo.timer_callback 5).2 = .ok none) ∧
    ((4 : ℚ) - cDemo.sequence_start_time = cDemo.profile_and_wait_duration ∧
      (cDemo.timer_callback 4).1 = cDemo) := by
  have h5 : (5 : ℚ) - cDemo.sequence_start_time > cDemo.profile_and_wait_duration := by
    norm_num [cDemo]
  have h4 : (4 : ℚ) - cDemo.sequence_start_time = cDemo.profile_and_wait_duration := by
    norm_num [cDemo]
  exact ⟨⟨h5, (claim_C2 cDemo 5).1 h5⟩, h4, (claim_C2 cDemo 4).2 h4⟩

/-- Claim C3: in the closed elapsed-time window from the profile duration to
the cycle duration no output is published; at elapsed exactly the profile
duration the wait test is strict and does not fire, but the next-index guard
then suppresses the output. -/
theorem claim_C3 (c : SteeringController) (t : ℚ)
    (hS : c.segment_duration_in_seconds = 1)
    (hPD : c.profile_duration = c.segment_duration_in_seconds * c.positions.length)
    (h1 : c.profile_duration ≤ t - c.sequence_start_time)
    (h2 : t - c.sequence_start_time ≤ c.profile_and_wait_duration) :
    (c.timer_callback t).2 = .ok none := by
  rcases lt_or_eq_of_le h1 with hlt | heq
  · rw [timer_callback_eq]
    split_ifs <;> first | rfl | exact absurd hlt (by assumption)
  · have hcount : t - c.sequence_start_time = (c.positions.length : ℚ) := by
      rw [← heq, hPD, hS, one_mul]
    exact tick_none_of_high c t (by rw [hcount, pyInt_natCast]; omega)

/-- Witness for C3: the demo profile ticked at exactly its 3 s profile
duration, inside the `[ProfileDuration, CycleDuration]` window. -/
theorem claim_C3_witness :
    cDemo.segment_duration_in_seconds = 1 ∧
    cDemo.profile_duration = cDemo.segment_duration_in_seconds * cDemo.positions.length ∧
    cDemo.profile_duration ≤ (3 : ℚ) - cDemo.sequence_start_time ∧
    (3 : ℚ) - cDemo.sequence_start_time ≤ cDemo.profile_and_wait_duration ∧
    (cDemo.timer_callback 3).2 = .ok none := by
  refine ⟨rfl, by norm_num [cDemo], by norm_num [cDemo], by norm_num [cDemo], ?_⟩
  exact claim_C3 cDemo 3 rfl (by norm_num [cDemo]) (by norm_num [cDemo]) (by norm_num [cDemo])

/-- Claim C4: the concrete §8 scenario.  Constructing with 2 axes and the 3
waypoints `[[0,0],[1,2],[2,4]]`, segment duration 1 s and wait 1 s yields
profile duration 3 s and cycle duration 4 s; ticks at elapsed 0.5 s and 1.5 s
publish `[0.5, 1.0]` and `[1.5, 3.0]`; at 2.5 s the segment index is 2 and
nothing is published; at 3.5 s (waiting) and 4.1 s (reset) nothing is
published, and the 4.1 s tick resets the start time. -/
theorem claim_C4 :
    SteeringController.init (some ["joint1", "joint2"]) 1
        [some [0, 0], some [1, 2], some [2, 4]]
        [some [1, 1], some [1, 1], some [1, 1]] 0 = .ok cDemo ∧
    cDemo.profile_duration = 3 ∧
    cDemo.profile_and_wait_duration = 4 ∧
    (cDemo.timer_callback ((1 : ℚ)/2)).2 = .ok (some [1/2, 1]) ∧
    (cDemo.timer_callback ((3 : ℚ)/2)).2 = .ok (some [3/2, 3]) ∧
    pyInt ((5 : ℚ)/2 - cDemo.sequence_start_time) = 2 ∧
    (cDemo.timer_callback ((5 : ℚ)/2)).2 = .ok none ∧
    (cDemo.timer_callback ((7 : ℚ)/2)).2 = .ok none ∧
    (cDemo.timer_callback ((41 : ℚ)/10)).2 = .ok none ∧
    (cDemo.timer_callback ((41 : ℚ)/10)).1 =
      { cDemo with sequence_start_time := 41/10 } := by
  refine ⟨?_, by norm_num [cDemo], by norm_num [cDemo], ?_, ?_, ?_, ?_, ?_, ?_, ?_⟩ <;>
    norm_num [SteeringController.init, readValueLists, SteeringController.timer_callback,
      pyInt, cDemo, interpolateValues, Except.map] <;>
    intro h <;> simp at h


/-- Claim C5: with at least two waypoints, a tick at elapsed 0 publishes
exactly waypoint 0 (fraction 0); and a tick taken at elapsed 0 with respect to
the start time left behind by any previous tick (in particular after a reset)
again publishes waypoint 0 — the cycle is fully restartable. -/
theorem claim_C5 (c : SteeringController) (t t2 : ℚ)
    (hW : Wf c) (hU : UniformLength c) (hn : 2 ≤ c.positions.length) :
    (t - c.sequence_start_time = 0 →
      (c.timer_callback t).2 = .ok (some (c.positions.headD []))) ∧
    (t2 - (c.timer_callback t).1.sequence_start_time = 0 →
      ((c.timer_callback t).1.timer_callback t2).2 =
        .ok (some (c.positions.headD []))) := by
  refine ⟨fun h0 => tick_at_start c t hW hU hn h0, fun h0 => ?_⟩
  rw [timer_callback_fst] at h0 ⊢
  by_cases hr : t - c.sequence_start_time > c.profile_and_wait_duration
  · rw [if_pos hr] at h0 ⊢
    exact tick_at_start { c with sequence_start_time := t } t2 hW hU hn h0
  · rw [if_neg hr] at h0 ⊢
    exact tick_at_start c t2 hW hU hn h0

/-- Witness for C5: the demo profile ticked at its start time, then the
post-tick state ticked at elapsed 0 again. -/
theorem claim_C5_witness :
    Wf cDemo ∧ UniformLength cDemo ∧ 2 ≤ cDemo.positions.length ∧
    (((0 : ℚ) - cDemo.sequence_start_time = 0 →
      (cDemo.timer_callback 0).2 = .ok (some (cDemo.positions.headD []))) ∧
     ((0 : ℚ) - (cDemo.timer_callback 0).1.sequence_start_time = 0 →
      ((cDemo.timer_callback 0).1.timer_callback 0).2 =
        .ok (some (cDemo.positions.headD [])))) := by
  have hW : Wf cDemo := by norm_num [Wf, cDemo]
  have hU : UniformLength cDemo := by simp [UniformLength, cDemo]
  have hn : 2 ≤ cDemo.positions.length := by norm_num [cDemo]
  exact ⟨hW, hU, hn, claim_C5 cDemo 0 0 hW hU hn⟩

/-- If any entry of a named value list is missing or empty, the reading loop
raises instead of returning a list. -/
theorem readValueLists_error :
    ∀ (l : List (Option (List ℚ))), (∃ p ∈ l, p = none ∨ p = some []) →
      ∃ msg, readValueLists l = .error msg
  | [], h => by simp at h
  | none :: rest, _ => ⟨"Values for goal not set", rfl⟩
  | some v :: rest, h => by
    rcases h with ⟨p, hp, hbad⟩
    rcases List.mem_cons.mp hp with rfl | hmem
    · rcases hbad with h1 | h1
      · exact absurd h1 (by simp)
      · obtain rfl : v = [] := by simpa using h1
        exact ⟨"Values for goal not set", rfl⟩
    · rcases readValueLists_error rest ⟨p, hmem, hbad⟩ with ⟨msg, hmsg⟩
      unfold readValueLists
      by_cases hv : v.length = 0
      · exact ⟨"Values for goal not set", by rw [if_pos hv]⟩
      · exact ⟨msg, by rw [if_neg hv, hmsg]; rfl⟩

/-- Counterexample to C6 as stated: with an empty waypoint-name list the
constructor's reading loop never executes, so a store with zero waypoints is
constructed successfully instead of failing. -/
theorem claim_C6_counterexample :
    SteeringController.init (some ["joint1"]) 1 [] [some [1]] 0 =
      .ok { positions := [], velocities := [[1]], segment_duration_in_seconds := 1,
            profile_duration := 0, profile_and_wait_duration := 1,
            sequence_start_time := 0 } := by
  norm_num [SteeringController.init, readValueLists, Option.some_ne_none, Except.map]

/-- Claim C6 (amended): construction fails, propagating an error instead of
producing a store, whenever any individual waypoint entry is missing or
empty; a waypoint-name list that is itself empty, however, constructs a store
with zero waypoints. -/
theorem claim_C6_amended (joints : Option (List String)) (w : ℚ)
    (posValues velValues : List (Option (List ℚ))) (t : ℚ)
    (hbad : ∃ p ∈ posValues, p = none ∨ p = some []) :
    ∃ msg, SteeringController.init joints w posValues velValues t = .error msg := by
  unfold SteeringController.init
  split_ifs with hj
  · exact ⟨"joints parameter is not set", rfl⟩
  · rcases readValueLists_error posValues hbad with ⟨msg, hmsg⟩
    rw [hmsg]
    exact ⟨msg, rfl⟩

/-- Witness for the amended C6: a waypoint set whose second entry is the
empty list makes construction fail. -/
theorem claim_C6_witness :
    (∃ p ∈ ([some [1], some []] : List (Option (List ℚ))), p = none ∨ p = some []) ∧
    ∃ msg, SteeringController.init (some ["joint1"]) 1 [some [1], some []]
      [some [1], some [1]] 0 = .error msg := by
  have hbad : ∃ p ∈ ([some [1], some []] : List (Option (List ℚ))),
      p = none ∨ p = some [] := ⟨some [], by simp, Or.inr rfl⟩
  exact ⟨hbad, claim_C6_amended (some ["joint1"]) 1 [some [1], some []]
    [some [1], some [1]] 0 hbad⟩

/-- A successfully constructed controller whose two waypoints have different
lengths: construction only checks non-emptiness. -/
def cBad : SteeringController :=
  { positions := [[0, 0], [1]]
    velocities := [[1], [1]]
    segment_duration_in_seconds := 1
    profile_duration := 2
    profile_and_wait_duration := 3
    sequence_start_time := 0 }

/-- Counterexample to C7 as stated: a constructed engine with waypoints of
unequal lengths makes the interpolation loop of the tick raise `IndexError`
instead of degrading to no output. -/
theorem claim_C7_counterexample :
    SteeringController.init (some ["j1", "j2"]) 1 [some [0, 0], some [1]]
        [some [1], some [1]] 0 = .ok cBad ∧
    (cBad.timer_callback ((1 : ℚ)/2)).2 = .error "IndexError" := by
  constructor <;>
    norm_num [SteeringController.init, readValueLists, SteeringController.timer_callback,
      pyInt, cBad, interpolateValues, Except.map] <;> intro h <;> simp at h

/-- Claim C7 (amended): for every engine whose waypoints all have equal
length (the §3 profile invariant) and every tick input, the tick never
raises: every abnormal condition yields only the absence of output. -/
theorem claim_C7_amended (c : SteeringController) (t : ℚ) (hU : UniformLength c) :
    ∃ r, (c.timer_callback t).2 = .ok r := by
  by_cases g1 : t - c.sequence_start_time > c.profile_and_wait_duration
  · exact ⟨none, by rw [timer_callback_eq, if_pos g1]⟩
  by_cases g2 : t - c.sequence_start_time > c.profile_duration
  · exact ⟨none, by rw [timer_callback_eq, if_neg g1, if_pos g2]⟩
  by_cases g3 : pyInt (t - c.sequence_start_time) < 0
  · exact ⟨none, tick_none_of_low c t g3⟩
  by_cases g4 : (c.positions.length : ℤ) ≤ pyInt (t - c.sequence_start_time) + 1
  · exact ⟨none, tick_none_of_high c t g4⟩
  exact ⟨some _, tick_interpolating c t hU g1 g2 g3 g4⟩

/-- Witness for the amended C7: the uniform-length demo profile ticked half a
second in returns an `ok` result. -/
theorem claim_C7_witness :
    UniformLength cDemo ∧ ∃ r, (cDemo.timer_callback ((1 : ℚ)/2)).2 = .ok r := by
  have hU : UniformLength cDemo := by simp [UniformLength, cDemo]
  exact ⟨hU, claim_C7_amended cDemo ((1 : ℚ)/2) hU⟩


/-- Claim C8: every tick leaves the waypoint positions, velocities, segment
duration and derived durations unchanged; the whole state is unchanged unless
the reset guard fires, and when it fires, only `sequence_start_time` changes
(to the tick clock value). -/
theorem claim_C8 (c : SteeringController) (t : ℚ) :
    (c.timer_callback t).1.positions = c.positions ∧
    (c.timer_callback t).1.velocities = c.velocities ∧
    (c.timer_callback t).1.segment_duration_in_seconds = c.segment_duration_in_seconds ∧
    (c.timer_callback t).1.profile_duration = c.profile_duration ∧
    (c.timer_callback t).1.profile_and_wait_duration = c.profile_and_wait_duration ∧
    (t - c.sequence_start_time > c.profile_and_wait_duration →
      (c.timer_callback t).1 = { c with sequence_start_time := t }) ∧
    (¬ t - c.sequence_start_time > c.profile_and_wait_duration →
      (c.timer_callback t).1 = c) := by
  rw [timer_callback_fst]
  split_ifs with h
  · exact ⟨rfl, rfl, rfl, rfl, rfl, fun _ => rfl, fun hn => absurd h hn⟩
  · exact ⟨rfl, rfl, rfl, rfl, rfl, fun hp => absurd hp h, fun _ => rfl⟩

/-- Witness for C8: the demo profile ticked past its cycle duration. -/
theorem claim_C8_witness :
    (cDemo.timer_callback 5).1.positions = cDemo.positions ∧
    (cDemo.timer_callback 5).1.velocities = cDemo.velocities ∧
    (cDemo.timer_callback 5).1.segment_duration_in_seconds =
      cDemo.segment_duration_in_seconds ∧
    (cDemo.timer_callback 5).1.profile_duration = cDemo.profile_duration ∧
    (cDemo.timer_callback 5).1.profile_and_wait_duration =
      cDemo.profile_and_wait_duration ∧
    ((5 : ℚ) - cDemo.sequence_start_time > cDemo.profile_and_wait_duration →
      (cDemo.timer_callback 5).1 = { cDemo with sequence_start_time := 5 }) ∧
    (¬ (5 : ℚ) - cDemo.sequence_start_time > cDemo.profile_and_wait_duration →
      (cDemo.timer_callback 5).1 = cDemo) :=
  claim_C8 cDemo 5

/-- The published output is computed without ever reading `velocities`. -/
theorem timer_callback_velocities (c : SteeringController) (v : List (List ℚ)) (t : ℚ) :
    ({ c with velocities := v }.timer_callback t).2 = (c.timer_callback t).2 := by
  obtain ⟨ps, vs, sd, pd, pwd, st⟩ := c
  rw [timer_callback_eq, timer_callback_eq]
  split_ifs <;> rfl

/-- Successful construction determines every field of the result from the
inputs: the value lists parse, and the derived durations come from the parsed
positions alone. -/
theorem init_ok_inv (joints : Option (List String)) (w : ℚ)
    (posValues velValues : List (Option (List ℚ))) (t : ℚ) (c : SteeringController)
    (h : SteeringController.init joints w posValues velValues t = .ok c) :
    ∃ ps vs, readValueLists posValues = .ok ps ∧ readValueLists velValues = .ok vs ∧
      c = { positions := ps, velocities := vs, segment_duration_in_seconds := 1,
            profile_duration := 1 * ps.length,
            profile_and_wait_duration := 1 * ps.length + w,
            sequence_start_time := t } := by
  unfold SteeringController.init at h
  split_ifs at h
  cases hp : readValueLists posValues with
  | error e => rw [hp] at h; exact absurd h (by simp)
  | ok ps =>
    cases hv : readValueLists velValues with
    | error e => rw [hp, hv] at h; exact absurd h (by simp)
    | ok vs =>
      rw [hp, hv] at h
      exact ⟨ps, vs, rfl, rfl, (Except.ok.inj h).symm⟩

/-- Claim C9: velocities never influence the output.  Two constructions that
differ only in their velocity value lists (both succeeding) produce engines
whose ticks publish identical outputs at every clock value. -/
theorem claim_C9 (joints : Option (List String)) (w : ℚ)
    (posValues v1 v2 : List (Option (List ℚ))) (t0 t : ℚ)
    (c1 c2 : SteeringController)
    (h1 : SteeringController.init joints w posValues v1 t0 = .ok c1)
    (h2 : SteeringController.init joints w posValues v2 t0 = .ok c2) :
    (c1.timer_callback t).2 = (c2.timer_callback t).2 := by
  rcases init_ok_inv joints w posValues v1 t0 c1 h1 with ⟨ps1, vs1, hp1, _, rfl⟩
  rcases init_ok_inv joints w posValues v2 t0 c2 h2 with ⟨ps2, vs2, hp2, _, rfl⟩
  obtain rfl : ps1 = ps2 := by rw [hp1] at hp2; exact Except.ok.inj hp2
  exact timer_callback_velocities
    { positions := ps1, velocities := vs2, segment_duration_in_seconds := 1,
      profile_duration := 1 * ps1.length,
      profile_and_wait_duration := 1 * ps1.length + w,
      sequence_start_time := t0 } vs1 t

/-- Controllers of the C9 witness: same positions, different velocities. -/
def c9a : SteeringController :=
  { positions := [[0], [1]]
    velocities := [[5]]
    segment_duration_in_seconds := 1
    profile_duration := 2
    profile_and_wait_duration := 3
    sequence_start_time := 0 }

/-- Second controller of the C9 witness. -/
def c9b : SteeringController :=
  { positions := [[0], [1]]
    velocities := [[7], [7]]
    segment_duration_in_seconds := 1
    profile_duration := 2
    profile_and_wait_duration := 3
    sequence_start_time := 0 }

/-- Witness for C9: two constructions differing only in velocities publish
the same vector half a second in. -/
theorem claim_C9_witness :
    SteeringController.init (some ["j"]) 1 [some [0], some [1]] [some [5]] 0 = .ok c9a ∧
    SteeringController.init (some ["j"]) 1 [some [0], some [1]] [some [7], some [7]] 0 =
      .ok c9b ∧
    (c9a.timer_callback ((1 : ℚ)/2)).2 = (c9b.timer_callback ((1 : ℚ)/2)).2 := by
  have h1 : SteeringController.init (some ["j"]) 1 [some [0], some [1]] [some [5]] 0 =
      .ok c9a := by
    norm_num [SteeringController.init, readValueLists, Option.some_ne_none, Except.map, c9a]
  have h2 : SteeringController.init (some ["j"]) 1 [some [0], some [1]]
      [some [7], some [7]] 0 = .ok c9b := by
    norm_num [SteeringController.init, readValueLists, Option.some_ne_none, Except.map, c9b]
  exact ⟨h1, h2, claim_C9 (some ["j"]) 1 [some [0], some [1]] [some [5]]
    [some [7], some [7]] 0 ((1 : ℚ)/2) c9a c9b h1 h2⟩

/-- Claim C10: a tick with elapsed time strictly between -1 and 0 (clock
before the stored start time, violating the monotonic-time precondition) gets
segment index 0 by truncation toward zero, passes the low guard, and (with at
least two equal-length waypoints) publishes a vector interpolated with the
negative fraction `elapsed`, lying on the far side of waypoint 0 from
waypoint 1 on every axis. -/
theorem claim_C10 (c : SteeringController) (t : ℚ)
    (hW : Wf c) (hU : UniformLength c) (hn : 2 ≤ c.positions.length)
    (hlo : -1 < t - c.sequence_start_time) (hhi : t - c.sequence_start_time < 0) :
    pyInt (t - c.sequence_start_time) = 0 ∧
    (c.timer_callback t).2 = .ok (some (interp (c.positions.getD 0 [])
      (c.positions.getD 1 []) (t - c.sequence_start_time))) ∧
    ∀ i : ℕ, ((interp (c.positions.getD 0 []) (c.positions.getD 1 [])
        (t - c.sequence_start_time)).getD i 0 - (c.positions.getD 0 []).getD i 0) *
      ((c.positions.getD 1 []).getD i 0 - (c.positions.getD 0 []).getD i 0) ≤ 0 := by
  obtain ⟨hS, hPD, hCW⟩ := hW
  have hpy : pyInt (t - c.sequence_start_time) = 0 := pyInt_neg_fraction hlo hhi
  have hPD0 : (0 : ℚ) ≤ c.profile_duration := by
    rw [hPD, hS, one_mul]; positivity
  have g1 : ¬ t - c.sequence_start_time > c.profile_and_wait_duration := by
    push_neg; linarith
  have g2 : ¬ t - c.sequence_start_time > c.profile_duration := by push_neg; linarith
  have g3 : ¬ pyInt (t - c.sequence_start_time) < 0 := by rw [hpy]; omega
  have g4 : ¬ (c.positions.length : ℤ) ≤ pyInt (t - c.sequence_start_time) + 1 := by
    rw [hpy]; push_neg; omega
  have h1n : 0 < c.positions.length := by omega
  have h2n : 1 < c.positions.length := by omega
  have hs : c.positions.getD 0 [] ∈ c.positions := by
    rw [List.getD_eq_getElem _ _ h1n]; exact List.getElem_mem h1n
  have he : c.positions.getD 1 [] ∈ c.positions := by
    rw [List.getD_eq_getElem _ _ h2n]; exact List.getElem_mem h2n
  have hlen : (c.positions.getD 0 []).length ≤ (c.positions.getD 1 []).length := by
    rw [hU _ hs, hU _ he]
  refine ⟨hpy, ?_, fun i => interp_extrapolate _ _ _ (le_of_lt hhi) hlen i⟩
  rw [tick_interpolating c t hU g1 g2 g3 g4, hpy, hS]
  norm_num

/-- Controller of the C10 witness: the demo profile with its start time moved
to 1 s, so a tick at 0.5 s has elapsed time -0.5 s. -/
def cShift : SteeringController :=
  { cDemo with sequence_start_time := 1 }

/-- Witness for C10: ticking the shifted demo profile at 0.5 s. -/
theorem claim_C10_witness :
    Wf cShift ∧ UniformLength cShift ∧ 2 ≤ cShift.positions.length ∧
    (-1 : ℚ) < (1 : ℚ)/2 - cShift.sequence_start_time ∧
    (1 : ℚ)/2 - cShift.sequence_start_time < 0 ∧
    (pyInt ((1 : ℚ)/2 - cShift.sequence_start_time) = 0 ∧
      (cShift.timer_callback ((1 : ℚ)/2)).2 =
        .ok (some (interp (cShift.positions.getD 0 []) (cShift.positions.getD 1 [])
          ((1 : ℚ)/2 - cShift.sequence_start_time))) ∧
      ∀ i : ℕ, ((interp (cShift.positions.getD 0 []) (cShift.positions.getD 1 [])
          ((1 : ℚ)/2 - cShift.sequence_start_time)).getD i 0 -
            (cShift.positions.getD 0 []).getD i 0) *
        ((cShift.positions.getD 1 []).getD i 0 -
          (cShift.positions.getD 0 []).getD i 0) ≤ 0) := by
  have hW : Wf cShift := by norm_num [Wf, cShift, cDemo]
  have hU : UniformLength cShift := by simp [UniformLength, cShift, cDemo]
  have hn : 2 ≤ cShift.positions.length := by norm_num [cShift, cDemo]
  have hlo : (-1 : ℚ) < (1 : ℚ)/2 - cShift.sequence_start_time := by
    norm_num [cShift, cDemo]
  have hhi : (1 : ℚ)/2 - cShift.sequence_start_time < 0 := by norm_num [cShift, cDemo]
  exact ⟨hW, hU, hn, hlo, hhi, claim_C10 cShift ((1 : ℚ)/2) hW hU hn hlo hhi⟩

end Zinger
